import Mathlib

/-! # Verification of the pylabpsu driver core

A shallow embedding of `pylabpsu.py`.  The two stateful classes are modelled as
explicit state records: `SerialCommunication` (the query engine sitting on the
serial transport) and `LabPSU` (the protocol-aware device session).  Side
effects are recorded in lists inside the state or returned alongside it: lines
written to the transport, Qt signal emissions, and Python `warnings.warn`
calls.  Python numbers (ints and floats) are modelled as exact rationals;
the untimed model renders a `queue.get(timeout=...)` that finds the queue
empty for the whole window as the queue being empty at the call.
-/

/-- The keys of the `LabPSU.status` dictionary. -/
inductive Key where
  | set_voltage
  | set_current
  | measured_voltage
  | measured_current
  | output
  deriving DecidableEq, Repr

/-- A Python value stored in the status dictionary: a number (int or float,
modelled as an exact rational) or a boolean. -/
inductive Value where
  | num (q : ℚ)
  | bool (b : Bool)
  deriving DecidableEq, Repr

/-- Python `==` on status values: numbers compare exactly, booleans compare
exactly, and a boolean compares with a number as its 0/1 coercion (Python's
`bool` is an `int` subtype).  No epsilon tolerance anywhere. -/
def pyEq : Value → Value → Bool
  | .num a, .num b => a == b
  | .bool a, .bool b => a == b
  | .num a, .bool b => a == (if b then 1 else 0)
  | .bool b, .num a => a == (if b then 1 else 0)

theorem pyEq_refl (v : Value) : pyEq v v = true := by
  cases v with
  | num q => simp [pyEq]
  | bool b => simp [pyEq]

/-- A matched `{query, response}` pair, the dict that `SerialCommunication.query`
puts on the `responses` delivery queue. -/
structure MatchedExchange where
  query : String
  response : String
  deriving DecidableEq, Repr

/-- State of a `SerialCommunication` object (`serial.threaded.LineReader`
subclass): the `connected` flag, the `received_lines` and `responses` FIFO
queues (head = oldest element), the log `written` of lines handed to
`write_line` (transport framing abstracted away), and whether the
single-exchange `lock` is held. -/
structure SerialCommunication where
  connected : Bool
  received_lines : List String
  responses : List MatchedExchange
  written : List String
  lockHeld : Bool
  deriving DecidableEq, Repr

/-- `SerialCommunication.__init__`: not connected, both queues empty, lock free. -/
def SerialCommunication.init : SerialCommunication :=
  { connected := false, received_lines := [], responses := [], written := [], lockHeld := false }

/-- `SerialCommunication.connection_made`: the reader thread reports the link up. -/
def SerialCommunication.connection_made (st : SerialCommunication) : SerialCommunication :=
  { st with connected := true }

/-- `SerialCommunication.connection_lost`: the reader thread reports the link
down.  The only effect in the code is `self.connected = False` on the
transport object. -/
def SerialCommunication.connection_lost (st : SerialCommunication) : SerialCommunication :=
  { st with connected := false }

/-- `SerialCommunication.handle_line`: the background reader enqueues one
terminator-stripped inbound line. -/
def SerialCommunication.handle_line (st : SerialCommunication) (line : String) : SerialCommunication :=
  { st with received_lines := st.received_lines ++ [line] }

/-- `SerialCommunication.query(query, timeout, expect_response)` run atomically
under `self.lock`.  Returns the post state, the Python return value (the
function body has no `return <value>` statement on any path, so it is always
`None`, modelled as `none`), and the list of `warnings.warn` messages emitted.
A `received_lines.get(timeout=...)` that raises `queue.Empty` is modelled as
the queue being empty. -/
def SerialCommunication.query (st : SerialCommunication) (q : String)
    (expect_response : Bool) : SerialCommunication × Option String × List String :=
  let held := { st with lockHeld := true, written := st.written ++ [q] }
  if expect_response = false then
    ({ held with lockHeld := false }, none, [])
  else
    match held.received_lines with
    | r :: rest =>
      ({ held with received_lines := rest,
                   responses := held.responses ++ [⟨q, r⟩],
                   lockHeld := false }, none, [])
    | [] =>
      ({ held with lockHeld := false }, none, ["Query timed out: " ++ q])

/-- A sequential run of the engine: for each `(q, r)` pair, the device's reply
`r` arrives (via `handle_line`) and then `query q` is submitted with
`expect_response = true`.  Because `SerialCommunication.query` holds the lock
for the whole write-then-wait round trip, concurrent submitters serialize into
exactly such a sequence. -/
def SerialCommunication.runExchanges (st : SerialCommunication) :
    List (String × String) → SerialCommunication
  | [] => st
  | (q, r) :: rest =>
    SerialCommunication.runExchanges ((st.handle_line r).query q true).1 rest

/-- Value of a digit character, `none` on a non-digit. -/
def digitVal (c : Char) : Option ℕ :=
  if c.isDigit then some (c.toNat - 48) else none

/-- Split a character list at the first dot: integer part, and the fractional
part when a dot is present. -/
def splitDot : List Char → List Char × Option (List Char)
  | [] => ([], none)
  | c :: rest =>
    if c = '.' then ([], some rest)
    else
      let (a, b) := splitDot rest
      (c :: a, b)

/-- Split a character list at the first `e`/`E`: mantissa, and the exponent
part when an exponent marker is present. -/
def splitExp : List Char → List Char × Option (List Char)
  | [] => ([], none)
  | c :: rest =>
    if c = 'e' ∨ c = 'E' then ([], some rest)
    else
      let (a, b) := splitExp rest
      (c :: a, b)

/-- The whitespace `float()` strips from both ends of its argument (the ASCII
space characters; the payloads here come off an ASCII serial line). -/
def isPySpace (c : Char) : Bool :=
  c = ' ' || c = '\t' || c = '\n' || c = '\r' || c = '\x0b' || c = '\x0c'

/-- Strip leading and trailing whitespace, as `float()` does. -/
def stripSpaces (cs : List Char) : List Char :=
  ((cs.dropWhile isPySpace).reverse.dropWhile isPySpace).reverse

/-- Scan a PEP-515 digit run (digits with single underscores strictly between
digits), accumulating its value and digit count; `none` on a stray character,
a doubled underscore, or a trailing underscore. -/
def readUDigitsAux : List Char → ℕ → ℕ → Option (ℕ × ℕ)
  | [], acc, count => some (acc, count)
  | c :: cs, acc, count =>
    if c = '_' then
      match cs with
      | d :: rest =>
        match digitVal d with
        | some v => readUDigitsAux rest (acc * 10 + v) (count + 1)
        | none => none
      | [] => none
    else
      match digitVal c with
      | some v => readUDigitsAux cs (acc * 10 + v) (count + 1)
      | none => none

/-- A non-empty PEP-515 digit run: value and digit count.  `none` when empty,
when it starts with an underscore, or when `readUDigitsAux` rejects. -/
def readUDigits (cs : List Char) : Option (ℕ × ℕ) :=
  match cs with
  | [] => none
  | c :: _ => if c = '_' then none else readUDigitsAux cs 0 0

/-- One side of the decimal point: may be empty (reads as no digits at all),
otherwise a valid digit run. -/
def readPart : List Char → Option (ℕ × ℕ)
  | [] => some (0, 0)
  | cs => readUDigits cs

/-- The mantissa `digits [. digits]` of a float literal, as the scaled
numerator `n * 10 ^ k + f` together with the fractional digit count `k`;
`none` when there is no digit at all or a run is malformed. -/
def readMantissa (cs : List Char) : Option (ℕ × ℕ) :=
  match splitDot cs with
  | (ip, none) => (readUDigits ip).map (fun p => (p.1, 0))
  | (ip, some fp) =>
    if ip = [] ∧ fp = [] then none
    else
      match readPart ip, readPart fp with
      | some pi, some pf => some (pi.1 * 10 ^ pf.2 + pf.1, pf.2)
      | _, _ => none

/-- The exponent `[+-] digits` of a float literal. -/
def readExp (cs : List Char) : Option ℤ :=
  let withSign : List Char × ℤ :=
    match cs with
    | '-' :: rest => (rest, -1)
    | '+' :: rest => (rest, 1)
    | cs => (cs, 1)
  (readUDigits withSign.1).map (fun p => withSign.2 * (p.1 : ℤ))

/-- A successful Python `float()` conversion: a finite value (kept as its
exact rational, the declared abstraction for floats — instead of being rounded
to the nearest double, which also subsumes overflow to `inf` and underflow to
zero of extreme exponents), or one of the non-finite values `float()` also
accepts. -/
inductive PyFloat where
  | finite (q : ℚ)
  | inf (neg : Bool)
  | nan
  deriving DecidableEq, Repr

/-- Python's `float()` on a string: strip whitespace, an optional sign, then
either the case-insensitive tokens `inf`/`infinity`/`nan` or a decimal literal
`digits [. digits] [(e|E) [+-] digits]` with PEP-515 underscores, needing at
least one mantissa digit.  Everything else — `"abc"`, `"ON"`, `""`, `"."`,
`"1e"`, `"1__0"`, `"1_."` … — raises `ValueError`, modelled as `none`.
(Python additionally accepts non-ASCII digit and space characters, which the
ASCII serial line never delivers.) -/
def pyFloat (s : String) : Option PyFloat :=
  let cs := stripSpaces s.data
  let withSign : List Char × Bool :=
    match cs with
    | '-' :: rest => (rest, true)
    | '+' :: rest => (rest, false)
    | cs => (cs, false)
  let body := withSign.1
  let neg := withSign.2
  let low := body.map Char.toLower
  if low = ['i', 'n', 'f'] ∨ low = ['i', 'n', 'f', 'i', 'n', 'i', 't', 'y'] then
    some (.inf neg)
  else if low = ['n', 'a', 'n'] then
    some .nan
  else
    let (mant, eopt) := splitExp body
    let e : Option ℤ :=
      match eopt with
      | none => some 0
      | some ecs => readExp ecs
    match readMantissa mant, e with
    | some mk, some e =>
      let signZ : ℤ := if neg then -1 else 1
      some (.finite (Rat.divInt (signZ * (mk.1 : ℤ) * (10 : ℤ) ^ e.toNat)
        ((10 : ℤ) ^ mk.2 * (10 : ℤ) ^ (-e).toNat)))
    | _, _ => none

/-- The finite value `pyFloat` builds for a mantissa of scaled numerator `m`
with `k` fractional digits and an exponent split as `ep - em` is the expected
`± (m / 10 ^ k) * 10 ^ (ep - em)`. -/
theorem pyFloat_value (s m : ℤ) (k ep em : ℕ) :
    Rat.divInt (s * m * (10 : ℤ) ^ ep) ((10 : ℤ) ^ k * (10 : ℤ) ^ em)
      = (s : ℚ) * ((m : ℚ) / (10 : ℚ) ^ k) * ((10 : ℚ) ^ ep / (10 : ℚ) ^ em) := by
  rw [Rat.divInt_eq_div]
  have hk : ((10 : ℚ) ^ k) ≠ 0 := by positivity
  have hm : ((10 : ℚ) ^ em) ≠ 0 := by positivity
  push_cast
  field_simp

/-- The rational a parsed float contributes to the status cache, whose value
space is the exact-rational abstraction.  The non-finite values have no
rational image; this device's numeric replies never produce them, no theorem
below depends on their image, and they are collapsed to `0` only to keep the
map total. -/
def PyFloat.toRat : PyFloat → ℚ
  | .finite q => q
  | .inf _ => 0
  | .nan => 0

/-- Nearest integer to `q`, ties to even — the rounding used by `%` fixed-point
formatting.  `f` is the floor of `q` and `r / q.den` its fractional part, so
the comparison of `2 * r` with `q.den` compares the fractional part with
`1 / 2`. -/
def roundHalfEven (q : ℚ) : ℤ :=
  let f : ℤ := q.num.fdiv (q.den : ℤ)
  let r : ℤ := q.num - f * (q.den : ℤ)
  if 2 * r < (q.den : ℤ) then f
  else if (q.den : ℤ) < 2 * r then f + 1
  else if f % 2 = 0 then f else f + 1

/-- Left-pad a fractional part to exactly three digits. -/
def padZeros3 (n : ℕ) : String :=
  if n < 10 then "00" ++ toString n
  else if n < 100 then "0" ++ toString n
  else toString n

/-- Python's `'%.3f' % x` (fixed three-decimal formatting, round half to even),
on the exact-rational model of the float `x`; a negative value that rounds to
zero keeps its sign, as it does on doubles.  The quantity that gets rounded,
`Rat.divInt (q.num * 1000) q.den`, is exactly `q * 1000` (`fmt3_scales`). -/
def fmt3 (q : ℚ) : String :=
  let n := roundHalfEven (Rat.divInt (q.num * 1000) (q.den : ℤ))
  let sign := if n < 0 ∨ (n = 0 ∧ q.num < 0) then "-" else ""
  let a := n.natAbs
  sign ++ toString (a / 1000) ++ "." ++ padZeros3 (a % 1000)

/-- The scaled quantity rounded inside `fmt3` is exactly `q * 1000`. -/
theorem fmt3_scales (q : ℚ) : Rat.divInt (q.num * 1000) (q.den : ℤ) = q * 1000 := by
  rw [Rat.divInt_eq_div]
  conv_rhs => rw [← Rat.num_div_den q]
  rw [div_mul_eq_mul_div]
  norm_cast

/-- Python string comparison `value == 'ON'` used by `status_set_on_off` :
true exactly on the literal token `"ON"`. -/
def parseOnOff (value : String) : Bool := value == "ON"

/-- State of a `LabPSU` object: the `status` dictionary, the `connected` and
`alive` flags, the contained `SerialCommunication` link, and effect logs — Qt
status-signal emissions `emitted` (pairs `(field, value)`), connection-signal
emissions `connSignals`, and `warnings.warn` messages.  `self.link = None`
while disconnected is modelled by the link being in its initial state; the
`connected` guard in `LabPSU.query` keeps it unused then, as in the code. -/
structure LabPSU where
  status : Key → Value
  connected : Bool
  alive : Bool
  link : SerialCommunication
  emitted : List (Key × Value)
  connSignals : List Bool
  warnings : List String

/-- The initial status dictionary from `LabPSU.__init__`: numeric fields start
at the Python int `-1`, the output flag at `False`. -/
def initStatus : Key → Value
  | .output => .bool false
  | _ => .num (-1)

/-- `LabPSU.__init__` (before any `connect`). -/
def LabPSU.init : LabPSU :=
  { status := initStatus, connected := false, alive := true,
    link := SerialCommunication.init, emitted := [], connSignals := [], warnings := [] }

/-- `LabPSU.connect`: open the port, install a fresh `SerialCommunication`
(whose reader thread immediately reports `connection_made`), set
`self.connected = True` and emit the connection signal. -/
def LabPSU.connect (st : LabPSU) : LabPSU :=
  { st with link := SerialCommunication.init.connection_made,
            connected := true,
            connSignals := st.connSignals ++ [true] }

/-- `LabPSU.disconnect`: no-op unless connected; otherwise clear the flag,
stop the worker and drop the link (modelled by resetting it), and emit the
connection signal. -/
def LabPSU.disconnect (st : LabPSU) : LabPSU :=
  if st.connected = false then st
  else { st with connected := false,
                 link := SerialCommunication.init,
                 connSignals := st.connSignals ++ [false] }

/-- The transport's reader thread reports loss of the link: the only code run
on the `LabPSU` side of the session is `SerialCommunication.connection_lost`. -/
def LabPSU.onConnectionLost (st : LabPSU) : LabPSU :=
  { st with link := st.link.connection_lost }

/-- `LabPSU.query`: guard on the session-level `connected` flag; when
connected, delegate to the link's `query` (whose `warnings.warn` output is
accumulated) and return `True`, else do nothing and return `False`. -/
def LabPSU.query (st : LabPSU) (q : String) (expect_response : Bool) : LabPSU × Bool :=
  if st.connected = false then (st, false)
  else
    let out := st.link.query q expect_response
    ({ st with link := out.1, warnings := st.warnings ++ out.2.2 }, true)

/-- `LabPSU.status_set(key, value)`: when `self.status[key] != value`, write
the cache, emit the field's Qt signal with the new value, and return `True`;
otherwise do nothing and return `False`. -/
def LabPSU.status_set (st : LabPSU) (key : Key) (value : Value) : LabPSU × Bool :=
  if pyEq (st.status key) value = false then
    ({ st with status := fun k => if k = key then value else st.status k,
               emitted := st.emitted ++ [(key, value)] }, true)
  else (st, false)

/-- `LabPSU.status_set_number(key, value)`: `float(value)` then `status_set`.
`float` raises `ValueError` on a malformed payload, modelled as `Except`:
`.error` is an exception escaping the method (nothing in the code catches it). -/
def LabPSU.status_set_number (st : LabPSU) (key : Key) (value : String) :
    Except String (LabPSU × Bool) :=
  match pyFloat value with
  | some x => .ok (st.status_set key (.num x.toRat))
  | none => .error ("could not convert string to float: " ++ value)

/-- `LabPSU.status_set_on_off(key, value)`: `bool(value == 'ON')` then `status_set`. -/
def LabPSU.status_set_on_off (st : LabPSU) (key : Key) (value : String) : LabPSU × Bool :=
  st.status_set key (.bool (parseOnOff value))

/-- One step of the drain: dispatch a dequeued response through the
`response_handlers` table of `LabPSU.process_responses`.  An unknown query
text runs the default handler, which only warns; a malformed numeric payload
propagates the `ValueError` out (`.error`). -/
def LabPSU.handleResponse (st : LabPSU) (ex : MatchedExchange) : Except String LabPSU :=
  if ex.query = ":MEAS:CURR?" then (st.status_set_number .measured_current ex.response).map Prod.fst
  else if ex.query = ":MEAS:VOLT?" then (st.status_set_number .measured_voltage ex.response).map Prod.fst
  else if ex.query = ":OUTP?" then .ok (st.status_set_on_off .output ex.response).1
  else if ex.query = ":CURR?" then (st.status_set_number .set_current ex.response).map Prod.fst
  else if ex.query = ":VOLT?" then (st.status_set_number .set_voltage ex.response).map Prod.fst
  else .ok { st with warnings := st.warnings ++ ["Unknown query: " ++ ex.query] }

/-- The `while not self.link.responses.empty()` loop of
`LabPSU.process_responses`, recursing on the pending queue (which mirrors
`st.link.responses`).  Each iteration dequeues one exchange before dispatching
it; an exception escaping a handler stops the loop with the remaining
exchanges still queued (`.2 = some e` — the exception keeps propagating). -/
def LabPSU.drainFrom (st : LabPSU) : List MatchedExchange → LabPSU × Option String
  | [] => (st, none)
  | ex :: rest =>
    let dq := { st with link := { st.link with responses := rest } }
    match dq.handleResponse ex with
    | .ok st1 => st1.drainFrom rest
    | .error e => (dq, some e)

/-- `LabPSU.process_responses`: return immediately when not connected, else
drain the delivery queue.  `.2 = some e` means an uncaught exception escaped
the method (and hence escapes `task_process_responses`, killing that thread). -/
def LabPSU.process_responses (st : LabPSU) : LabPSU × Option String :=
  if st.connected = false then (st, none)
  else st.drainFrom st.link.responses

/-- `measure_current`. -/
def LabPSU.measure_current (st : LabPSU) : LabPSU := (st.query ":MEAS:CURR?" true).1

/-- `measure_voltage`. -/
def LabPSU.measure_voltage (st : LabPSU) : LabPSU := (st.query ":MEAS:VOLT?" true).1

/-- `set_output(state)`: `'ON'` exactly when `state is True`, else `'OFF'`;
fire-and-forget (`expect_response=False`). -/
def LabPSU.set_output (st : LabPSU) (state : Bool) : LabPSU :=
  (st.query (":OUTP " ++ (if state = true then "ON" else "OFF")) false).1

/-- `get_output`. -/
def LabPSU.get_output (st : LabPSU) : LabPSU := (st.query ":OUTP?" true).1

/-- `get_current`. -/
def LabPSU.get_current (st : LabPSU) : LabPSU := (st.query ":CURR?" true).1

/-- `set_current(current)`: fire-and-forget with `'%.3f'` formatting. -/
def LabPSU.set_current (st : LabPSU) (current : ℚ) : LabPSU :=
  (st.query (":CURR " ++ fmt3 current) false).1

/-- `get_voltage`. -/
def LabPSU.get_voltage (st : LabPSU) : LabPSU := (st.query ":VOLT?" true).1

/-- `set_voltage(voltage)`: fire-and-forget with `'%.3f'` formatting. -/
def LabPSU.set_voltage (st : LabPSU) (voltage : ℚ) : LabPSU :=
  (st.query (":VOLT " ++ fmt3 voltage) false).1

/-- The guard of `task_query_status`: the poll loop keeps spinning while
`alive`, and runs its battery of queries on a pass exactly when `connected`. -/
def LabPSU.pollActive (st : LabPSU) : Bool := st.alive && st.connected

/-- The guard of `task_process_responses`: the drain loop keeps spinning while
`alive`, and calls `process_responses` on a pass exactly when `connected`. -/
def LabPSU.drainActive (st : LabPSU) : Bool := st.alive && st.connected

/-- One pass of the poll loop body while connected: the fixed battery
`get_output`, `measure_current`, `measure_voltage`, `get_current`,
`get_voltage`. -/
def LabPSU.pollOnce (st : LabPSU) : LabPSU :=
  if st.connected = false then st
  else st.get_output.measure_current.measure_voltage.get_current.get_voltage

/-- A freshly connected session: the state right after `LabPSU().connect(port)`. -/
def connectedPSU : LabPSU := LabPSU.init.connect

/-- C1: `status_set(field, v)` writes the cache and emits exactly one
`{field, value}` notification iff `v` differs from the cached value under
Python's exact (no-epsilon) equality, returning `True` exactly then; on an
unchanged value it returns `False` with no cache write and no notification,
and a repeated call with the same field and value never notifies twice. -/
theorem c1_status_set_dedup (st : LabPSU) (k : Key) (v : Value) :
    ((st.status_set k v).2 = true ↔ pyEq (st.status k) v = false)
    ∧ ((st.status_set k v).2 = true →
        (st.status_set k v).1.status k = v
        ∧ (st.status_set k v).1.emitted = st.emitted ++ [(k, v)])
    ∧ ((st.status_set k v).2 = false → (st.status_set k v).1 = st)
    ∧ ((st.status_set k v).1.status_set k v).2 = false
    ∧ (((st.status_set k v).1.status_set k v).1.emitted = (st.status_set k v).1.emitted) := by
  by_cases h : pyEq (st.status k) v = false
  · simp [LabPSU.status_set, h, pyEq_refl]
  · simp [LabPSU.status_set, h]

/-- Witness for C1: from the initial cache, setting `measured_voltage` to
`5.0` notifies (returns `True`); immediately repeating the identical call does
not notify again. -/
theorem c1_witness :
    (LabPSU.init.status_set .measured_voltage (.num (Rat.divInt 5 1))).2 = true
    ∧ ((LabPSU.init.status_set .measured_voltage (.num (Rat.divInt 5 1))).1.status_set
        .measured_voltage (.num (Rat.divInt 5 1))).2 = false := by
  have h := c1_status_set_dedup LabPSU.init .measured_voltage (.num (Rat.divInt 5 1))
  exact ⟨h.1.mpr (by decide), h.2.2.2.1⟩

/-- C9: a payload routed to the output-state handler parses to `true` iff it
is exactly the literal token `"ON"` (so `"OFF"`, `"0"`, or any variant with
extra characters parses to `false`), and `status_set_on_off` stores exactly
that parsed boolean. -/
theorem c9_output_parse (s : String) :
    (parseOnOff s = true ↔ s = "ON")
    ∧ parseOnOff "OFF" = false
    ∧ parseOnOff "0" = false
    ∧ parseOnOff "ON " = false
    ∧ parseOnOff "on" = false
    ∧ ∀ st : LabPSU, ∀ k : Key,
        st.status_set_on_off k s = st.status_set k (.bool (parseOnOff s)) := by
  refine ⟨?_, by decide, by decide, by decide, by decide, fun st k => rfl⟩
  simp [parseOnOff]

/-- Witness for C9 at the concrete payloads `"ON"` and `"OFF"`. -/
theorem c9_witness : parseOnOff "ON" = true ∧ parseOnOff "OFF" = false := by
  exact ⟨(c9_output_parse "ON").1.mpr rfl, (c9_output_parse "OFF").2.1⟩

/-- C7: while connected, `set_voltage(v)` writes exactly the line
`":VOLT " ++ fmt3 v` and `set_current(i)` exactly `":CURR " ++ fmt3 i`
(`'%.3f'` fixed three-decimal formatting; `fmt3 3.3 = "3.300"`,
`fmt3 0.5 = "0.500"`), and both are fire-and-forget: no reply is awaited or
correlated — the inbound queue and the delivery queue are untouched. -/
theorem c7_set_formatting (st : LabPSU) (v i : ℚ) (h : st.connected = true) :
    (st.set_voltage v).link.written = st.link.written ++ [":VOLT " ++ fmt3 v]
    ∧ (st.set_current i).link.written = st.link.written ++ [":CURR " ++ fmt3 i]
    ∧ (st.set_voltage v).link.received_lines = st.link.received_lines
    ∧ (st.set_voltage v).link.responses = st.link.responses
    ∧ (st.set_current i).link.received_lines = st.link.received_lines
    ∧ (st.set_current i).link.responses = st.link.responses
    ∧ fmt3 (Rat.divInt 33 10) = "3.300"
    ∧ fmt3 (Rat.divInt 1 2) = "0.500" := by
  refine ⟨?_, ?_, ?_, ?_, ?_, ?_, by decide, by decide⟩ <;>
    simp [LabPSU.set_voltage, LabPSU.set_current, LabPSU.query, SerialCommunication.query, h]

/-- Witness for C7: on a freshly connected session, `set_voltage(3.3)` writes
`":VOLT 3.300"` and `set_current(0.5)` writes `":CURR 0.500"`. -/
theorem c7_witness :
    (connectedPSU.set_voltage (Rat.divInt 33 10)).link.written = [":VOLT 3.300"]
    ∧ (connectedPSU.set_current (Rat.divInt 1 2)).link.written = [":CURR 0.500"] := by
  have h := c7_set_formatting connectedPSU (Rat.divInt 33 10) (Rat.divInt 1 2) rfl
  constructor
  · rw [h.1, h.2.2.2.2.2.2.1]
    decide
  · rw [h.2.1, h.2.2.2.2.2.2.2]
    decide

/-- C8: while connected, `set_output(True)` writes the literal line
`":OUTP ON"` and `set_output(False)` writes `":OUTP OFF"`; both pass
`expect_response=False`, so no reply is awaited and no correlation happens
(inbound and delivery queues untouched). -/
theorem c8_set_output (st : LabPSU) (h : st.connected = true) :
    (st.set_output true).link.written = st.link.written ++ [":OUTP ON"]
    ∧ (st.set_output false).link.written = st.link.written ++ [":OUTP OFF"]
    ∧ (st.set_output true).link.received_lines = st.link.received_lines
    ∧ (st.set_output true).link.responses = st.link.responses
    ∧ (st.set_output false).link.received_lines = st.link.received_lines
    ∧ (st.set_output false).link.responses = st.link.responses := by
  refine ⟨?_, ?_, ?_, ?_, ?_, ?_⟩ <;>
    simp [LabPSU.set_output, LabPSU.query, SerialCommunication.query, h]

/-- Witness for C8 on a freshly connected session. -/
theorem c8_witness :
    (connectedPSU.set_output true).link.written = [":OUTP ON"]
    ∧ (connectedPSU.set_output false).link.written = [":OUTP OFF"] := by
  have h := c8_set_output connectedPSU rfl
  exact ⟨h.1, h.2.1⟩

/-- C10: when the session is `Disconnected`, `LabPSU.query` returns `False`
and leaves the whole state — transport log, status cache, queues, signals —
untouched, so every command entry point routed through it (`set_voltage`,
`set_current`, `set_output`, `measure_current`, `measure_voltage`,
`get_output`, `get_current`, `get_voltage`) is a no-op; when the session is
`Connected`, `LabPSU.query` returns `True` whatever the link state, in
particular also when the underlying exchange then times out. -/
theorem c10_disconnected_guard (st : LabPSU) (q : String) (er : Bool)
    (v i : ℚ) (b : Bool) :
    (st.connected = false →
      (st.query q er).2 = false
      ∧ (st.query q er).1 = st
      ∧ st.set_voltage v = st
      ∧ st.set_current i = st
      ∧ st.set_output b = st
      ∧ st.measure_current = st
      ∧ st.measure_voltage = st
      ∧ st.get_output = st
      ∧ st.get_current = st
      ∧ st.get_voltage = st)
    ∧ (st.connected = true → (st.query q er).2 = true) := by
  constructor
  · intro h
    simp [LabPSU.query, h, LabPSU.set_voltage, LabPSU.set_current, LabPSU.set_output,
      LabPSU.measure_current, LabPSU.measure_voltage, LabPSU.get_output,
      LabPSU.get_current, LabPSU.get_voltage]
  · intro h
    simp [LabPSU.query, h]

/-- Witness for C10: on the initial (disconnected) session, a query returns
`False` and `set_voltage(3.3)` is a no-op; on a freshly connected session the
same query returns `True` even though its exchange times out (no reply is
queued). -/
theorem c10_witness :
    (LabPSU.init.query ":VOLT?" true).2 = false
    ∧ LabPSU.init.set_voltage (Rat.divInt 33 10) = LabPSU.init
    ∧ (connectedPSU.query ":VOLT?" true).2 = true := by
  have h1 := c10_disconnected_guard LabPSU.init ":VOLT?" true (Rat.divInt 33 10) 0 true
  have h2 := c10_disconnected_guard connectedPSU ":VOLT?" true 0 0 true
  exact ⟨(h1.1 rfl).1, (h1.1 rfl).2.2.1, h2.2 rfl⟩

/-- C5: a query with `expect_response=True` whose reply does not arrive within
the timeout surfaces a "Query timed out" warning (not an exception), enqueues
no `MatchedExchange` — so a drain over the (unchanged, here empty) delivery
queue leaves the status cache as it was — releases the single-exchange lock,
performs no retry (exactly one line was written), and the engine then accepts
and correctly processes the next submitted query. -/
theorem c5_timeout_recovery (st : SerialCommunication) (q : String)
    (h : st.received_lines = []) :
    (st.query q true).1.responses = st.responses
    ∧ (st.query q true).1.lockHeld = false
    ∧ (st.query q true).2.2 = ["Query timed out: " ++ q]
    ∧ (st.query q true).1.written = st.written ++ [q]
    ∧ (st.query q true).1.received_lines = []
    ∧ (∀ q2 r, (((st.query q true).1.handle_line r).query q2 true).1.responses
        = st.responses ++ [⟨q2, r⟩])
    ∧ (∀ psu : LabPSU, psu.link = (st.query q true).1 → st.responses = [] →
        psu.process_responses.1.status = psu.status) := by
  refine ⟨?_, ?_, ?_, ?_, ?_, ?_, ?_⟩
  · simp [SerialCommunication.query, h]
  · simp [SerialCommunication.query, h]
  · simp [SerialCommunication.query, h]
  · simp [SerialCommunication.query, h]
  · simp [SerialCommunication.query, h]
  · intro q2 r
    simp [SerialCommunication.query, SerialCommunication.handle_line, h]
  · intro psu hlink hre
    by_cases hc : psu.connected = false
    · simp [LabPSU.process_responses, hc]
    · have hq : psu.link.responses = [] := by
        rw [hlink]
        simp [SerialCommunication.query, h, hre]
      simp [LabPSU.process_responses, hc, hq, LabPSU.drainFrom]

/-- Witness for C5: on a freshly connected, quiescent engine a `":VOLT?"`
query times out with a warning and enqueues nothing, and a following
`":CURR?"` query whose reply `"0.500"` arrives is matched correctly. -/
theorem c5_witness :
    (SerialCommunication.init.connection_made.query ":VOLT?" true).2.2
      = ["Query timed out: :VOLT?"]
    ∧ (SerialCommunication.init.connection_made.query ":VOLT?" true).1.responses = []
    ∧ (SerialCommunication.init.connection_made.query ":VOLT?" true).1.lockHeld = false
    ∧ ((((SerialCommunication.init.connection_made.query ":VOLT?" true).1.handle_line
          "0.500").query ":CURR?" true).1.responses = [⟨":CURR?", "0.500"⟩]) := by
  have h := c5_timeout_recovery SerialCommunication.init.connection_made ":VOLT?" rfl
  exact ⟨h.2.2.1, h.1, h.2.1, h.2.2.2.2.2.1 ":CURR?" "0.500"⟩

/-- C6: queries submitted sequentially with `expect_response=True`, each
receiving a reply (no timeouts), produce `MatchedExchange`s on the delivery
queue in exactly submission order: after `runExchanges pairs` the queue has
grown by `pairs` itself (so the Nth new exchange pairs the Nth submitted query
with the Nth reply), and the queries went out on the wire in the same order. -/
theorem c6_order_preservation (pairs : List (String × String))
    (st : SerialCommunication) (h : st.received_lines = []) :
    (st.runExchanges pairs).responses
      = st.responses ++ pairs.map (fun p => MatchedExchange.mk p.1 p.2)
    ∧ (st.runExchanges pairs).written = st.written ++ pairs.map Prod.fst := by
  induction pairs generalizing st with
  | nil => simp [SerialCommunication.runExchanges]
  | cons p rest ih =>
    obtain ⟨q, r⟩ := p
    have step :
        ((st.handle_line r).query q true).1
          = { st with received_lines := [],
                      responses := st.responses ++ [⟨q, r⟩],
                      written := st.written ++ [q],
                      lockHeld := false } := by
      simp [SerialCommunication.handle_line, SerialCommunication.query, h]
    have ihs := ih ((st.handle_line r).query q true).1 (by rw [step])
    rw [SerialCommunication.runExchanges] at *
    rw [ihs.1, ihs.2, step]
    simp

/-- Witness for C6: two exchanges on a freshly connected engine arrive on the
delivery queue in submission order. -/
theorem c6_witness :
    (SerialCommunication.init.connection_made.runExchanges
        [(":OUTP?", "ON"), (":MEAS:CURR?", "0.123")]).responses
      = [⟨":OUTP?", "ON"⟩, ⟨":MEAS:CURR?", "0.123"⟩] := by
  have h := c6_order_preservation [(":OUTP?", "ON"), (":MEAS:CURR?", "0.123")]
    SerialCommunication.init.connection_made rfl
  rw [h.1]
  decide

/-- C3 counterexample: connect a session and let the transport report
`connection_lost`.  The session-level `ConnectionState` is still `Connected`,
the poll- and drain-loop guards are still active, and the only
connection-state notification ever emitted is the `True` from `connect` — no
`{connected: false}` notification is produced. -/
theorem c3_counterexample :
    LabPSU.init.connect.onConnectionLost.connected = true
    ∧ LabPSU.init.connect.onConnectionLost.pollActive = true
    ∧ LabPSU.init.connect.onConnectionLost.drainActive = true
    ∧ LabPSU.init.connect.onConnectionLost.connSignals = [true] :=
  ⟨rfl, rfl, rfl, by decide⟩

/-- C3 amended: `connection_lost` only clears the transport-level `connected`
flag (which nothing else in the program reads); the Device Session stays
`Connected`, both loop guards and the whole session state are untouched, and
no `{connected: false}` notification is emitted.  The
`Connected → Disconnected` transition with its notification happens only on an
explicit `disconnect()`. -/
theorem c3_connection_lost_ignored (st : LabPSU) :
    st.onConnectionLost.link.connected = false
    ∧ st.onConnectionLost.connected = st.connected
    ∧ st.onConnectionLost.pollActive = st.pollActive
    ∧ st.onConnectionLost.drainActive = st.drainActive
    ∧ st.onConnectionLost.connSignals = st.connSignals
    ∧ st.onConnectionLost.status = st.status
    ∧ st.onConnectionLost.emitted = st.emitted
    ∧ (st.connected = true →
        st.disconnect.connected = false
        ∧ st.disconnect.connSignals = st.connSignals ++ [false]) := by
  refine ⟨rfl, rfl, rfl, rfl, rfl, rfl, rfl, ?_⟩
  intro h
  constructor <;> simp [LabPSU.disconnect, h]

/-- Witness for C3 amended, on the freshly connected session. -/
theorem c3_witness :
    connectedPSU.onConnectionLost.connected = connectedPSU.connected
    ∧ connectedPSU.onConnectionLost.connSignals = connectedPSU.connSignals
    ∧ connectedPSU.disconnect.connected = false
    ∧ connectedPSU.disconnect.connSignals = connectedPSU.connSignals ++ [false] := by
  have h := c3_connection_lost_ignored connectedPSU
  exact ⟨h.2.1, h.2.2.2.2.1, (h.2.2.2.2.2.2.2 rfl).1, (h.2.2.2.2.2.2.2 rfl).2⟩

/-- C4 counterexample: a reply `"1.234"` is waiting, `query ":VOLT?"` with
`expect_response=True` matches and enqueues the exchange — but the call
returns `None` (the Python function has no `return` of the line), not the
reply line the claim promises. -/
theorem c4_counterexample :
    ((SerialCommunication.init.connection_made.handle_line "1.234").query
        ":VOLT?" true).1.responses = [⟨":VOLT?", "1.234"⟩]
    ∧ ((SerialCommunication.init.connection_made.handle_line "1.234").query
        ":VOLT?" true).2.1 = none
    ∧ ¬ ((SerialCommunication.init.connection_made.handle_line "1.234").query
        ":VOLT?" true).2.1 = some "1.234" := by
  refine ⟨by decide, rfl, by decide⟩

/-- C4 amended: for a query with `expect_response=True` whose reply is
available before the timeout, `query` constructs the `MatchedExchange`
`{query, line}`, pushes it onto the delivery queue, consumes the reply from
the inbound queue, and releases the lock — but returns `None` (no value), not
the reply line; the matched line reaches consumers only through the delivery
queue.  With `expect_response=False` it returns `None` immediately after the
write, with no correlation performed. -/
theorem c4_submit_behaviour (st : SerialCommunication) (q r : String)
    (rest : List String) (h : st.received_lines = r :: rest) :
    (st.query q true).1.responses = st.responses ++ [⟨q, r⟩]
    ∧ (st.query q true).1.received_lines = rest
    ∧ (st.query q true).1.lockHeld = false
    ∧ (st.query q true).1.written = st.written ++ [q]
    ∧ (st.query q true).2.1 = none
    ∧ (∀ st2 : SerialCommunication, ∀ q2 : String,
        (st2.query q2 false).1.responses = st2.responses
        ∧ (st2.query q2 false).1.received_lines = st2.received_lines
        ∧ (st2.query q2 false).1.written = st2.written ++ [q2]
        ∧ (st2.query q2 false).1.lockHeld = false
        ∧ (st2.query q2 false).2.1 = none) := by
  refine ⟨?_, ?_, ?_, ?_, ?_, ?_⟩
  · simp [SerialCommunication.query, h]
  · simp [SerialCommunication.query, h]
  · simp [SerialCommunication.query, h]
  · simp [SerialCommunication.query, h]
  · simp [SerialCommunication.query, h]
  · intro st2 q2
    refine ⟨?_, ?_, ?_, ?_, ?_⟩ <;> simp [SerialCommunication.query]

/-- Witness for C4 amended at a concrete matched exchange and a concrete
fire-and-forget write. -/
theorem c4_witness :
    ((SerialCommunication.init.connection_made.handle_line "5.000").query
        ":CURR?" true).1.responses = [⟨":CURR?", "5.000"⟩]
    ∧ ((SerialCommunication.init.connection_made.handle_line "5.000").query
        ":CURR?" true).2.1 = none
    ∧ (SerialCommunication.init.connection_made.query ":OUTP ON" false).1.responses = [] := by
  have h := c4_submit_behaviour (SerialCommunication.init.connection_made.handle_line "5.000")
    ":CURR?" "5.000" [] rfl
  refine ⟨?_, h.2.2.2.2.1, ?_⟩
  · rw [h.1]
    decide
  · exact (h.2.2.2.2.2 SerialCommunication.init.connection_made ":OUTP ON").1


/-- Dispatching any of the four numeric queries with a payload `float()`
rejects raises `ValueError` out of the handler. -/
theorem handleResponse_malformed (st : LabPSU) (q resp : String)
    (hq : q = ":MEAS:CURR?" ∨ q = ":MEAS:VOLT?" ∨ q = ":CURR?" ∨ q = ":VOLT?")
    (hm : pyFloat resp = none) :
    st.handleResponse ⟨q, resp⟩ = .error ("could not convert string to float: " ++ resp) := by
  rcases hq with h | h | h | h <;> subst h <;>
    simp [LabPSU.handleResponse, LabPSU.status_set_number, hm, Except.map]

/-- A session holding two pending matched exchanges, the first with a
malformed numeric payload: the engine matched `"abc"` to `":VOLT?"` and
`"2.0"` to `":CURR?"`. -/
def c2PSU : LabPSU :=
  { connectedPSU with
    link := connectedPSU.link.runExchanges [(":VOLT?", "abc"), (":CURR?", "2.0")] }

/-- C2 counterexample: draining with a malformed numeric payload first in the
queue is not recoverable — `process_responses` ends with an uncaught
`ValueError` (which kills the drain thread), nothing is logged, and the
following well-formed response `(":CURR?", "2.0")` is left unprocessed, its
field update never applied. -/
theorem c2_counterexample :
    c2PSU.process_responses.2.isSome = true
    ∧ c2PSU.process_responses.1.status Key.set_voltage = Value.num (-1)
    ∧ c2PSU.process_responses.1.status Key.set_current = Value.num (-1)
    ∧ c2PSU.process_responses.1.link.responses = [⟨":CURR?", "2.0"⟩]
    ∧ c2PSU.process_responses.1.warnings = [] :=
  ⟨rfl, by decide, by decide, by decide, rfl⟩

/-- C2 amended: when a dequeued response names a numeric query and its payload
is malformed, `float()` raises a `ValueError` that nothing catches: the
faulting field's cache entry is indeed left unchanged and that update skipped
— but the error is not logged, the exception escapes `process_responses`
(terminating the drain loop's thread), and the remaining queued responses are
left unprocessed.  Only the unknown-query case is handled as a logged,
recoverable warning. -/
theorem c2_malformed_numeric (st : LabPSU) (q resp : String)
    (rest : List MatchedExchange) (hc : st.connected = true)
    (hq : q = ":MEAS:CURR?" ∨ q = ":MEAS:VOLT?" ∨ q = ":CURR?" ∨ q = ":VOLT?")
    (hm : pyFloat resp = none)
    (hr : st.link.responses = ⟨q, resp⟩ :: rest) :
    st.process_responses.2.isSome = true
    ∧ st.process_responses.1.status = st.status
    ∧ st.process_responses.1.emitted = st.emitted
    ∧ st.process_responses.1.warnings = st.warnings
    ∧ st.process_responses.1.link.responses = rest := by
  have he := handleResponse_malformed
    { st with link := { st.link with responses := rest } } q resp hq hm
  have hne : ¬ st.connected = false := by simp [hc]
  rw [LabPSU.process_responses, if_neg hne, hr]
  simp only [LabPSU.drainFrom]
  rw [he]
  simp

/-- Witness for C2 amended at the concrete two-exchange queue of `c2PSU`. -/
theorem c2_witness :
    c2PSU.process_responses.2.isSome = true
    ∧ c2PSU.process_responses.1.emitted = c2PSU.emitted
    ∧ c2PSU.process_responses.1.link.responses = [⟨":CURR?", "2.0"⟩] := by
  have h := c2_malformed_numeric c2PSU ":VOLT?" "abc" [⟨":CURR?", "2.0"⟩] rfl
    (Or.inr (Or.inr (Or.inr rfl))) (by decide) (by decide)
  exact ⟨h.1, h.2.2.1, h.2.2.2.2⟩
